import Mathlib

/-!
Verification of the rate-limited, checkpointed batch image-analysis
orchestrator.  The definitions below are shallow embeddings of the
TypeScript sources:

* `RateLimiter`, `waitForSlot`, `recordTokenUsage`, `withRateLimit`
  embed `src/lib/rate-limiter.ts`;
* `parseAnalysisResponse`, `analyzeImageWithPromptUsingUrl`,
  `analyzeImage`, `analyzeImages` embed `src/lib/openai-analyzer.ts`
  (the current version, with rate limiting, sequential prompts and
  concurrency groups of four);
* `saveAnalysisResults` and the flush machinery embed
  `src/lib/gcp-storage.ts` and the `saveIncremental` closure of
  `src/app/api/analyze/stream/route.ts`;
* `routeEvents` embeds the event-emission control flow of the `POST`
  handler of `src/app/api/analyze/stream/route.ts`.

Time is modelled as a natural number of milliseconds.  JavaScript
`Date.now()` readings are threaded explicitly; `await`-based sleeping is
modelled by advancing the clock.  All stored timestamps are produced by
the code itself, so `Nat` subtraction agrees with JavaScript subtraction
everywhere a comparison `now - t < windowMs` is made (a negative
JavaScript difference and a truncated-to-zero `Nat` difference are both
`< windowMs`).
-/

/-! ## Rate limiter (`src/lib/rate-limiter.ts`) -/
/-- One entry of the token-usage window: `{ timestamp, tokens }`. -/
structure TokenUsage where
  timestamp : Nat
  tokens : Nat
deriving Repr, DecidableEq

/-- Constructor options of `RateLimiter`. -/
structure RateLimiterOptions where
  maxRequests : Nat
  maxTokens : Nat
  windowMs : Nat
deriving Repr, DecidableEq

/-- The mutable state of the `RateLimiter` class. -/
structure RateLimiter where
  maxRequests : Nat
  maxTokens : Nat
  windowMs : Nat
  requests : List Nat
  tokenUsage : List TokenUsage
deriving Repr, DecidableEq

/-- `new RateLimiter(options)`: both windows start empty. -/
def RateLimiter.ofOptions (o : RateLimiterOptions) : RateLimiter :=
  ⟨o.maxRequests, o.maxTokens, o.windowMs, [], []⟩

/-- The pruning filter `requests.filter(t => now - t < windowMs)`. -/
def pruneRequests (windowMs now : Nat) (requests : List Nat) : List Nat :=
  requests.filter (fun timestamp => now - timestamp < windowMs)

/-- The pruning filter `tokenUsage.filter(u => now - u.timestamp < windowMs)`. -/
def pruneTokenUsage (windowMs now : Nat) (usage : List TokenUsage) : List TokenUsage :=
  usage.filter (fun u => now - u.timestamp < windowMs)

/-- `tokenUsage.reduce((sum, usage) => sum + usage.tokens, 0)`. -/
def tokenSum (usage : List TokenUsage) : Nat :=
  usage.foldl (fun sum u => sum + u.tokens) 0

/-- The RPM branch of `waitForSlot`: if the windowed request count has
reached `maxRequests`, sleep until the oldest request leaves the window
(plus 100 ms) and re-prune both windows.  Returns the request window, the
token window and the clock after the branch.  When the request list is
empty, `this.requests[0]` is `undefined` in the source, the computed wait
is `NaN` and the `waitTime > 0` test fails, so nothing happens. -/
def rpmWait (windowMs maxRequests now : Nat) (reqs : List Nat) (toks : List TokenUsage) :
    List Nat × List TokenUsage × Nat :=
  if maxRequests ≤ reqs.length then
    match reqs.head? with
    | some oldestRequest =>
      let waitTime := windowMs - (now - oldestRequest) + 100
      if 0 < waitTime then
        let newNow := now + waitTime
        (pruneRequests windowMs newNow reqs, pruneTokenUsage windowMs newNow toks, newNow)
      else (reqs, toks, now)
    | none => (reqs, toks, now)
  else (reqs, toks, now)

/-- The TPM branch of `waitForSlot`: if the windowed token sum plus the
estimate exceeds `maxTokens`, sleep until the oldest token record leaves
the window and re-prune the token window only.  The wait is computed
against the stale `now` captured at the top of `waitForSlot` (`origNow`),
exactly as in the source, while the sleep itself starts at the current
clock `t1`. -/
def tpmWait (windowMs maxTokens estimatedTokens origNow t1 : Nat) (toks : List TokenUsage) :
    List TokenUsage × Nat :=
  if maxTokens < tokenSum toks + estimatedTokens then
    match toks.head? with
    | some oldestTokenUsage =>
      let waitTime := windowMs - (origNow - oldestTokenUsage.timestamp) + 100
      if 0 < waitTime then
        (pruneTokenUsage windowMs (t1 + waitTime) toks, t1 + waitTime)
      else (toks, t1)
    | none => (toks, t1)
  else (toks, t1)

/-- `RateLimiter.waitForSlot(estimatedTokens)` run to completion starting
at clock `now`: prune both windows, run the RPM branch, run the TPM
branch, then push the current clock onto the request window.  Returns the
new limiter state and the clock when the call returns. -/
def RateLimiter.waitForSlot (rl : RateLimiter) (estimatedTokens now : Nat) :
    RateLimiter × Nat :=
  let reqs0 := pruneRequests rl.windowMs now rl.requests
  let toks0 := pruneTokenUsage rl.windowMs now rl.tokenUsage
  let r := rpmWait rl.windowMs rl.maxRequests now reqs0 toks0
  let t := tpmWait rl.windowMs rl.maxTokens estimatedTokens now r.2.2 r.2.1
  ({ rl with requests := r.1 ++ [t.2], tokenUsage := t.1 }, t.2)

/-- `RateLimiter.recordTokenUsage(tokens)` at clock `now`: push the
actual usage onto the token window, unconditionally. -/
def RateLimiter.recordTokenUsage (rl : RateLimiter) (tokens now : Nat) : RateLimiter :=
  { rl with tokenUsage := rl.tokenUsage ++ [⟨now, tokens⟩] }

/-- One call against the limiter: `delay` milliseconds pass, then the
call runs to completion. -/
inductive LimiterOp where
  | waitCall (delay estimatedTokens : Nat)
  | recordCall (delay tokens : Nat)
deriving Repr, DecidableEq

/-- Execute one limiter call on a (state, clock) pair. -/
def limiterStep : RateLimiter × Nat → LimiterOp → RateLimiter × Nat
  | (rl, t), .waitCall d est => rl.waitForSlot est (t + d)
  | (rl, t), .recordCall d tok => (rl.recordTokenUsage tok (t + d), t + d)

/-- Execute a sequence of limiter calls against a fresh limiter,
starting at clock 0. -/
def runLimiter (o : RateLimiterOptions) (ops : List LimiterOp) : RateLimiter × Nat :=
  ops.foldl limiterStep (RateLimiter.ofOptions o, 0)

/-- The number of request timestamps lying inside the trailing window. -/
def windowedRequestCount (rl : RateLimiter) (now : Nat) : Nat :=
  (pruneRequests rl.windowMs now rl.requests).length

/-- The sum of the token records lying inside the trailing window. -/
def windowedTokenSum (rl : RateLimiter) (now : Nat) : Nat :=
  tokenSum (pruneTokenUsage rl.windowMs now rl.tokenUsage)

/-- The module-level singleton configuration: 480 requests and 28000
tokens per 60-second window. -/
def openaiRateLimiterOptions : RateLimiterOptions :=
  ⟨480, 28000, 60000⟩

/-- Invariant of sequential limiter execution: configuration fields are
fixed, every stored request timestamp is in the past, and the windowed
request count is within the ceiling. -/
def ReqInv (o : RateLimiterOptions) (s : RateLimiter × Nat) : Prop :=
  s.1.maxRequests = o.maxRequests ∧ s.1.windowMs = o.windowMs ∧
    (∀ x ∈ s.1.requests, x ≤ s.2) ∧ windowedRequestCount s.1 s.2 ≤ o.maxRequests

/-! ## JSON values and response normalization (`src/lib/openai-analyzer.ts`) -/
/-- A JavaScript/JSON value as produced by `JSON.parse` on the provider
response.  Numbers are modelled as integers (sufficient for every count
and sum the code manipulates). -/
inductive JValue where
  | null
  | bool (b : Bool)
  | num (n : Int)
  | str (s : String)
  | arr (xs : List JValue)
  | obj (fields : List (String × JValue))
deriving Repr

/-- Property access `parsed.k` on a JSON value: the first binding of the
key in an object, `undefined` (`none`) otherwise. -/
def jGet (v : JValue) (k : String) : Option JValue :=
  match v with
  | .obj fields => (fields.find? (fun kv => kv.1 == k)).map (fun kv => kv.2)
  | _ => none

/-- JavaScript truthiness of a possibly-undefined value. -/
def jTruthy : Option JValue → Bool
  | none => false
  | some .null => false
  | some (.bool b) => b
  | some (.num n) => !(n == 0)
  | some (.str s) => !(s == "")
  | some (.arr _) => true
  | some (.obj _) => true

mutual

/-- `JSON.stringify` (modulo number formatting and exotic escapes, which
no claim depends on). -/
def jsonStringify : JValue → String
  | .null => "null"
  | .bool true => "true"
  | .bool false => "false"
  | .num n => toString n
  | .str s => "\"" ++ s ++ "\""
  | .arr xs => "[" ++ jsonStringifyItems xs ++ "]"
  | .obj fs => "\x7b" ++ jsonStringifyFields fs ++ "\x7d"

/-- Comma-separated serialization of array items. -/
def jsonStringifyItems : List JValue → String
  | [] => ""
  | [x] => jsonStringify x
  | x :: xs => jsonStringify x ++ "," ++ jsonStringifyItems xs

/-- Comma-separated serialization of object fields. -/
def jsonStringifyFields : List (String × JValue) → String
  | [] => ""
  | [(k, v)] => "\"" ++ k ++ "\":" ++ jsonStringify v
  | (k, v) :: xs => "\"" ++ k ++ "\":" ++ jsonStringify v ++ "," ++ jsonStringifyFields xs

end

/-- The value summed for one entry of a `count` breakdown:
`typeof val === 'number' ? val : 0`. -/
def numOrZero : JValue → Int
  | .num n => n
  | _ => 0

/-- The `count` normalization of `parseAnalysisResponse`: a numeric
`count` passes through unchanged; an object (or array — also
`typeof 'object'` in JavaScript, whose `Object.values` are its elements)
is summed over its numeric values; anything else yields 0. -/
def normalizeCount (v : Option JValue) : Int :=
  match v with
  | some (.num n) => n
  | some (.obj fields) => (fields.map (fun kv => kv.2)).foldl (fun sum val => sum + numOrZero val) 0
  | some (.arr xs) => xs.foldl (fun sum val => sum + numOrZero val) 0
  | _ => 0

/-- String coercion applied to `description` and `details`:
`typeof x === 'string' ? x : JSON.stringify(x || '')`. -/
def stringOrStringify (v : Option JValue) : String :=
  match v with
  | some (.str s) => s
  | v => if jTruthy v then jsonStringify ((v.getD .null)) else jsonStringify (.str "")

/-- The normalized output of one prompt evaluation.  Fields typed `any`
at runtime in the source (`promptId`, `promptName`, `confidence`) are
kept as JSON values. -/
structure AnalysisResult where
  promptId : JValue
  promptName : JValue
  «match» : Bool
  count : Int
  description : String
  details : String
  confidence : JValue
  additionalObservations : Option String
deriving Repr

/-- `parseAnalysisResponse(parsed)`: normalize the parsed provider
response into an `AnalysisResult`. -/
def parseAnalysisResponse (parsed : JValue) : AnalysisResult :=
  { promptId := if jTruthy (jGet parsed "promptId")
      then (jGet parsed "promptId").getD .null else .str ""
    promptName := if jTruthy (jGet parsed "promptName")
      then (jGet parsed "promptName").getD .null else .str ""
    «match» := match jGet parsed "match" with
      | some (.bool true) => true
      | _ => false
    count := normalizeCount (jGet parsed "count")
    description := stringOrStringify (jGet parsed "description")
    details := stringOrStringify (jGet parsed "details")
    confidence := if jTruthy (jGet parsed "confidence")
      then (jGet parsed "confidence").getD .null else .str "medium"
    additionalObservations :=
      match jGet parsed "additional_observations" with
      | some (.str s) => some s
      | v => if jTruthy v then some (jsonStringify (v.getD .null)) else none }

/-! ## Error classification and string search -/
/-- `pat` is a leading subsequence of `s` (character lists). -/
def takeStarts : List Char → List Char → Bool
  | [], _ => true
  | _ :: _, [] => false
  | p :: ps, c :: cs => p == c && takeStarts ps cs

/-- Substring search on character lists. -/
def charsInclude (hay pat : List Char) : Bool :=
  takeStarts pat hay ||
    match hay with
    | [] => false
    | _ :: cs => charsInclude cs pat

/-- JavaScript `hay.includes(pat)`. -/
def strIncludes (hay pat : String) : Bool :=
  charsInclude hay.data pat.data

/-- A thrown JavaScript error as observed by the analyzer: an optional
HTTP status and a message. -/
structure JsError where
  status : Option Nat
  message : String
deriving Repr, DecidableEq

/-- The timeout classifier of `analyzeImageWithPromptUsingUrl`:
`message` contains `Timeout`, `timeout` or `downloading`, or the status
is 400 with `Timeout` in the message. -/
def isTimeoutError (e : JsError) : Bool :=
  strIncludes e.message "Timeout" || strIncludes e.message "timeout" ||
    strIncludes e.message "downloading" ||
    (e.status == some 400 && strIncludes e.message "Timeout")

/-! ## Prompts (`src/lib/analysis-prompts.ts`) -/
/-- One analysis prompt specification. -/
structure AnalysisPrompt where
  id : String
  name : String
  searchObjective : String
  lookingFor : String
  detectionCriteria : String
deriving Repr, DecidableEq

/-- The built-in prompt set (`DEFAULT_PROMPTS`, re-exported as
`ANALYSIS_PROMPTS`).  Criteria texts are carried verbatim up to
whitespace; no claim depends on their contents, only on the ids and
names. -/
def ANALYSIS_PROMPTS : List AnalysisPrompt :=
  [⟨"crowd_detection", "Crowd Detection",
    "Detect and measure the presence of large gatherings of people in Indian public areas.",
    "crowd clusters or dense gatherings",
    "Identify large groups of people standing close together, forming clusters, or causing crowding. Focus on areas like markets, bus stands, temples, roadside shops, or footpaths where dense gatherings commonly occur in India."⟩,
   ⟨"no_parking", "No Parking Violation",
    "Detect vehicles parked in prohibited or restricted zones commonly seen on Indian roads.",
    "illegally parked two-wheelers, cars, or autos",
    "Detect vehicles stopped in no-parking zones, blocking footpaths, near gates, shop entrances, bus stops, or near \"No Parking\" signboards. Also check for vehicles parked on narrow Indian streets causing obstruction."⟩,
   ⟨"garbage_detection", "Garbage Detection",
    "Identify noticeable garbage or waste accumulation in public areas.",
    "visible piles of garbage, multiple litter items, or overflowing bins.",
    "Detect garbage only when it is clearly visible and significant enough to impact cleanliness. Valid cases include: (1) piles of trash or multiple pieces of litter grouped together, (2) overflowing garbage bins, or (3) noticeable waste dumped in open areas. Ignore very small or isolated items such as a single wrapper, cup, leaf, or tiny paper unless part of a larger littered area."⟩,
   ⟨"pothole_detection", "Pothole Detection",
    "Detect only those potholes or road damages that require contractor-level repair.",
    "major potholes, severe cracks, structural road damage",
    "Identify only significant road defects that clearly require contractor repair work. Focus on deep potholes, wide cracks, broken asphalt, or road damage that affects vehicle movement or safety. Ignore small patches, surface discoloration, or minor wear and tear. Detect damage only when it is visibly substantial and cannot be ignored by municipal maintenance teams."⟩,
   ⟨"congestion_detection", "Traffic Congestion",
    "Analyze the level of traffic congestion in Indian road conditions.",
    "slow-moving or tightly packed traffic",
    "Look for long queues of vehicles, closely packed traffic, minimal movement, and mixed traffic density involving cars, bikes, autos, buses, and pedestrians. Identify typical Indian congestion scenarios like bottlenecks at junctions or market areas."⟩,
   ⟨"wrong_driving", "Wrong-Way / Wrong Driving",
    "Detect vehicles genuinely moving against the correct traffic flow.",
    "vehicles traveling opposite to the intended direction of the lane they are in.",
    "Detect wrong-way driving ONLY when traffic direction can be clearly understood from: (1) visible road markers (arrows, dividers, medians), or (2) at least one other vehicle in the same lane moving in a clear direction. Ignore cases with only a single vehicle when lane direction cannot be determined. Do NOT rely on camera angle, rider posture, or assumptions when direction is unclear. If traffic direction cannot be confidently identified, output: \"Direction unclear in this frame.\""⟩]

/-! ## Prompt evaluator (`analyzeImageWithPromptUsingUrl`) -/
/-- The image payload handed to the provider on one attempt. -/
inductive ImagePayload where
  | url (u : String)
  | inlineBase64 (data : String)
deriving Repr, DecidableEq

/-- Oracle for one prompt evaluation: the outcome of the signed-URL
provider call (the parsed response content, or the thrown error), the
base64 data URL the object store would return, and the outcome of the
inline-bytes retry. -/
structure PromptEnv where
  tier1 : Except JsError JValue
  base64 : String
  tier2 : Except JsError JValue

/-- `analyzeImageWithPromptUsingUrl(signedUrl, imagePath, prompt)`:
try the signed URL; on an error classified as an image-fetch timeout,
fetch the bytes and retry exactly once inline; rethrow any other error.
Returns the list of payloads attempted (in order) and the overall
outcome. -/
def analyzeImageWithPromptUsingUrl (signedUrl imagePath : String)
    (prompt : AnalysisPrompt) (env : PromptEnv) :
    List ImagePayload × Except JsError AnalysisResult :=
  match env.tier1 with
  | .ok parsed =>
    ([.url signedUrl],
      .ok { parseAnalysisResponse parsed with
              promptId := .str prompt.id, promptName := .str prompt.name })
  | .error urlError =>
    if isTimeoutError urlError then
      match env.tier2 with
      | .ok parsed =>
        ([.url signedUrl, .inlineBase64 env.base64],
          .ok { parseAnalysisResponse parsed with
                  promptId := .str prompt.id, promptName := .str prompt.name })
      | .error e => ([.url signedUrl, .inlineBase64 env.base64], .error e)
    else ([.url signedUrl], .error urlError)

/-! ## Image analyzer (`analyzeImage`) -/
/-- Status of one analyzed image. -/
inductive AnalysisStatus where
  | success
  | error
deriving Repr, DecidableEq

/-- The per-image aggregate record. -/
structure ImageAnalysisResult where
  filename : String
  imagePath : String
  date : String
  cameraType : String
  results : List AnalysisResult
  status : AnalysisStatus
  error : Option String
deriving Repr

/-- The prompt filter at the top of `analyzeImage`: the selected subset
of `ANALYSIS_PROMPTS` when a non-empty selection is given, otherwise all
prompts. -/
def promptsToUse (selectedPromptIds : Option (List String)) : List AnalysisPrompt :=
  match selectedPromptIds with
  | some ids =>
    if 0 < ids.length then ANALYSIS_PROMPTS.filter (fun p => ids.contains p.id)
    else ANALYSIS_PROMPTS
  | none => ANALYSIS_PROMPTS

/-- The error result pushed when one prompt evaluation throws. -/
def failedAnalysisResult (prompt : AnalysisPrompt) (e : JsError) : AnalysisResult :=
  { promptId := .str prompt.id, promptName := .str prompt.name,
    «match» := false, count := 0, description := "Analysis failed",
    details := e.message, confidence := .str "low", additionalObservations := none }

/-- `analyzeImage(imagePath, filename, date, cameraType,
selectedPromptIds)`: derive one signed URL, then evaluate every selected
prompt against it sequentially, converting a thrown per-prompt error into
a failed result; a failure of the URL derivation itself yields
`status = error` with no results. -/
def analyzeImage (imagePath filename date cameraType : String)
    (selectedPromptIds : Option (List String))
    (urlResult : Except JsError String)
    (env : AnalysisPrompt → PromptEnv) : ImageAnalysisResult :=
  let prompts := promptsToUse selectedPromptIds
  match urlResult with
  | .error e =>
    { filename := filename, imagePath := imagePath, date := date,
      cameraType := cameraType, results := [], status := .error,
      error := some e.message }
  | .ok signedUrl =>
    let results := prompts.map (fun prompt =>
      match (analyzeImageWithPromptUsingUrl signedUrl imagePath prompt (env prompt)).2 with
      | .ok result => result
      | .error e => failedAnalysisResult prompt e)
    { filename := filename, imagePath := imagePath, date := date,
      cameraType := cameraType, results := results, status := .success,
      error := none }

/-! ## Batch orchestrator (`analyzeImages`) -/
/-- One element of the input image list. -/
structure ImageInput where
  path : String
  url : Option String
  filename : String
  date : String
  cameraType : String
deriving Repr, DecidableEq

/-- One `onProgress(current, total, result)` invocation. -/
structure ProgressEvent where
  current : Nat
  total : Nat
  result : ImageAnalysisResult
deriving Repr

/-- The grouping loop `for (let i = 0; i < images.length; i += 4)` with
`images.slice(i, i + 4)`: fixed-size concurrency groups of four. -/
def toBatches {α : Type} : List α → List (List α)
  | [] => []
  | a :: b :: c :: d :: rest => [a, b, c, d] :: toBatches rest
  | xs => [xs]

/-- `analyzeImages(images, onProgress, selectedPromptIds)`: process the
concurrency groups sequentially; within a group every image is analyzed
(concurrently in the source, with results collected in input order by
`Promise.all`); after each group, report one progress event per group
member carrying the cumulative completed count.  Oracles supply each
image's signed-URL outcome and per-prompt call outcomes. -/
def analyzeImages (images : List ImageInput)
    (selectedPromptIds : Option (List String))
    (urlOf : ImageInput → Except JsError String)
    (envOf : ImageInput → AnalysisPrompt → PromptEnv) :
    List ImageAnalysisResult × List ProgressEvent :=
  (toBatches images).foldl
    (fun acc batch =>
      let batchResults := batch.map (fun image =>
        analyzeImage image.path image.filename image.date image.cameraType
          selectedPromptIds (urlOf image) (envOf image))
      let results := acc.1 ++ batchResults
      (results, acc.2 ++ batchResults.map (fun r => ⟨results.length, images.length, r⟩)))
    ([], [])

/-! ## Checkpoint persistence (`src/lib/gcp-storage.ts`) -/
/-- The metadata argument of `saveAnalysisResults`. -/
structure SaveMetadata where
  date : Option String
  cameraType : Option String
  totalImages : Option Nat
deriving Repr, DecidableEq

/-- The JSON document written by `saveAnalysisResults` (the `timestamp`
field, an ISO clock reading, is carried as an opaque string). -/
structure SavedResultData where
  timestamp : String
  metadataDate : String
  metadataCameraType : String
  totalImages : Nat
  processedImages : Nat
  results : List ImageAnalysisResult
  summaryTotal : Nat
  summarySuccessful : Nat
  summaryFailed : Nat
  isPartial : Bool
deriving Repr

/-- The object path chosen by `saveAnalysisResults`: the existing path
when one is passed, otherwise a fresh timestamped path
`results/TIMESTAMP/results.json`. -/
def savePathFor (existingPath : Option String) (ts : String) : String :=
  match existingPath with
  | some p => p
  | none => "results/" ++ ts ++ "/results.json"

/-- `saveAnalysisResults(results, metadata, existingPath)` at wall-clock
reading `ts`: build the result document and write it to the chosen path
(overwriting).  Returns the document and the path.  `isPartial` is
`true` exactly when an existing path was passed in. -/
def saveAnalysisResults (results : List ImageAnalysisResult)
    (metadata : SaveMetadata) (existingPath : Option String) (ts : String) :
    SavedResultData × String :=
  let resultPath := savePathFor existingPath ts
  ({ timestamp := ts,
     metadataDate := metadata.date.getD "unknown",
     metadataCameraType := metadata.cameraType.getD "all",
     totalImages := metadata.totalImages.getD results.length,
     processedImages := results.length,
     results := results,
     summaryTotal := results.length,
     summarySuccessful := (results.filter (fun r => r.status == .success)).length,
     summaryFailed := (results.filter (fun r => r.status == .error)).length,
     isPartial := existingPath.isSome }, resultPath)

/-- The checkpoint-identity state owned by one streaming run. -/
structure StreamSaveState where
  checkpointPath : Option String
deriving Repr, DecidableEq

/-- The `saveIncremental(isFinal)` closure of the streaming route at
wall-clock reading `ts`: skip when nothing is accumulated; otherwise
write through `saveAnalysisResults`, passing the checkpoint path when
one exists, and remember the path of the first completed save.
`isFinal` only selects the log message and the `savedPath` variable; it
does not influence the document. -/
def saveIncremental (st : StreamSaveState)
    (allResults : List ImageAnalysisResult) (metadata : SaveMetadata)
    (isFinal : Bool) (ts : String) :
    StreamSaveState × Option (SavedResultData × String) :=
  if allResults.length = 0 then (st, none)
  else
    let pathToUse := st.checkpointPath
    let saved := saveAnalysisResults allResults metadata pathToUse ts
    ({ checkpointPath := some (st.checkpointPath.getD saved.2) }, some saved)

/-! ## Overlapping flushes -/
/-- A flush against the shared checkpoint state, split at its suspension
point: `start` reads `checkpointPath` and fixes the object path (using
the wall clock `ts` when no checkpoint exists yet); `finish` performs the
write and publishes the path into `checkpointPath`.  Fire-and-forget
flushes may interleave other events between the two halves. -/
inductive FlushEvent where
  | start (id : Nat) (ts : String)
  | finish (id : Nat)
deriving Repr, DecidableEq

/-- State of the flush machine: the shared checkpoint path, the pending
(started, unfinished) flushes with their chosen paths, and the log of
object paths written so far. -/
structure FlushMachine where
  checkpointPath : Option String
  pending : List (Nat × String)
  writes : List String
deriving Repr, DecidableEq

/-- Initial flush-machine state of a run. -/
def FlushMachine.init : FlushMachine :=
  ⟨none, [], []⟩

/-- One flush event.  `start` chooses `savePathFor checkpointPath ts`;
`finish` records the write and sets `checkpointPath` if still unset,
exactly as `saveIncremental` does after awaiting
`saveAnalysisResults`. -/
def flushStep (m : FlushMachine) : FlushEvent → FlushMachine
  | .start id ts =>
    { m with pending := m.pending ++ [(id, savePathFor m.checkpointPath ts)] }
  | .finish id =>
    match m.pending.find? (fun kv => kv.1 == id) with
    | none => m
    | some kv =>
      { checkpointPath := some (m.checkpointPath.getD kv.2),
        pending := m.pending.filter (fun e => !(e.1 == id)),
        writes := m.writes ++ [kv.2] }

/-- Run a list of flush events from the initial state. -/
def runFlushes (events : List FlushEvent) : FlushMachine :=
  events.foldl flushStep FlushMachine.init

/-- The flush id named by an event. -/
def FlushEvent.id : FlushEvent → Nat
  | .start i _ => i
  | .finish i => i

/-! ## Streaming route events (`src/app/api/analyze/stream/route.ts`) -/
/-- The events sent over the SSE stream, reduced to their kinds (the
claim under study only counts events of kind `error`).  Periodic `ping`
keep-alives are timer-driven and omitted. -/
inductive StreamEvent where
  | start
  | log
  | progress (current total : Nat)
  | imageProcessed
  | matched
  | errorEvent (message : String)
  | complete
deriving Repr, DecidableEq

/-- One abstract run of the streaming `POST` handler.  `bodyOk` is
whether `request.json()` resolves; `dateOk` whether the parsed date is
truthy; `fetchOk` whether listing/signing the input images succeeds;
`imagesCount` how many images were found; `analysisOk` whether
`analyzeImages` resolves (when it rejects, `completedCount` images had
already been pushed into `allResults`); `finalSaveOk` whether the
awaited final `saveIncremental(true)` resolves; `rescueSaveOk` whether
the best-effort save attempted by the failure handlers resolves. -/
structure RouteScenario where
  bodyOk : Bool
  dateOk : Bool
  fetchOk : Bool
  imagesCount : Nat
  analysisOk : Bool
  completedCount : Nat
  finalSaveOk : Bool
  rescueSaveOk : Bool
deriving Repr, DecidableEq

/-- Number of results accumulated when the handler enters its failure
path: all images on success, `completedCount` on an analysis failure. -/
def RouteScenario.resultsAtFailure (s : RouteScenario) : Nat :=
  if s.analysisOk then s.imagesCount else s.completedCount

/-- The inner `catch (analysisError)` handler: a best-effort save plus
exactly one `error` event, with a message depending on whether anything
was accumulated and whether the rescue save resolves. -/
def innerCatchEvents (s : RouteScenario) : List StreamEvent :=
  if 0 < s.resultsAtFailure then
    if s.rescueSaveOk then
      [.log, .errorEvent "Analysis stopped. Partial results saved."]
    else
      [.errorEvent "Analysis failed and could not save results."]
  else
    [.errorEvent "Analysis failed before any results were generated."]

/-- The outer `catch (error)` handler: one `error` event carrying the
rethrown message, then a best-effort save that only logs. -/
def outerCatchEvents (s : RouteScenario) : List StreamEvent :=
  [.errorEvent "stream error"] ++
    if 0 < s.resultsAtFailure then
      if s.rescueSaveOk then [.log] else []
    else []

/-- The per-image callback events of a successful analysis: for each
completed image a `progress` and an `image_processed` event (plus
possible `match` and `log` events, data-dependent and irrelevant to the
error count, omitted). -/
def callbackEvents (s : RouteScenario) : List StreamEvent :=
  (List.range s.imagesCount).flatMap (fun i => [.progress (i + 1) s.imagesCount, .imageProcessed])

/-- The full event trace of one run of the streaming `POST` handler,
following the control flow of the source: body parse, date validation,
image listing, the analysis loop with its inner failure handler, the
awaited final save, and the outer failure handler. -/
def routeEvents (s : RouteScenario) : List StreamEvent :=
  if !s.bodyOk then
    outerCatchEvents { s with analysisOk := false, completedCount := 0 }
  else if !s.dateOk then
    [.errorEvent "Date is required"]
  else if !s.fetchOk then
    [.start, .log] ++ outerCatchEvents { s with analysisOk := false, completedCount := 0 }
  else if s.imagesCount = 0 then
    [.start, .log, .errorEvent "No images found"]
  else
    [.start, .log, .progress 0 s.imagesCount] ++
      (if s.analysisOk then
        callbackEvents s ++
          (if s.finalSaveOk then
            [.log, .complete]
          else
            innerCatchEvents s ++ outerCatchEvents s)
      else
        callbackEvents { s with imagesCount := s.completedCount } ++
          innerCatchEvents s ++ outerCatchEvents s)

/-- The number of `error` events in a trace. -/
def errorEventCount (events : List StreamEvent) : Nat :=
  (events.filter (fun e => match e with | .errorEvent _ => true | _ => false)).length

/-! ## Rate-limited retry wrapper (`withRateLimit`) -/
/-- A provider rejection as inspected by `withRateLimit`: the HTTP
status and the two retry-after headers it reads (`retry-after-ms` in
milliseconds, `retry-after` in seconds), plus the message. -/
structure ApiError where
  status : Option Nat
  retryAfterMs : Option Nat
  retryAfterSec : Option Nat
  message : String
deriving Repr, DecidableEq

/-- Outcome of one invocation of the wrapped function. -/
inductive CallOutcome (α : Type) where
  | ok (value : α)
  | fail (e : ApiError)

/-- Result of a `withRateLimit` run: the wrapped value, a rethrown
error, or the unreachable max-retries guard. -/
inductive RLResult (α : Type) where
  | ok (value : α)
  | thrown (e : ApiError)
  | maxRetriesExceeded

/-- Observable trace of a `withRateLimit` run: the final result, the
limiter state and clock, the retry delays slept, the admission clock of
every completed `waitForSlot`, and the number of attempts made. -/
structure RLRun (α : Type) where
  result : RLResult α
  limiter : RateLimiter
  clock : Nat
  sleeps : List Nat
  admissions : List Nat
  attempts : Nat

/-- The retry delay computed on a 429 rejection: the `retry-after-ms`
header when present, else the `retry-after` header (seconds) times 1000,
else the backoff `(attempt + 1) * 2000`. -/
def retryDelay (e : ApiError) (attempt : Nat) : Nat :=
  match e.retryAfterMs with
  | some ms => ms
  | none =>
    match e.retryAfterSec with
    | some s => s * 1000
    | none => (attempt + 1) * 2000

/-- The retry loop of `withRateLimit(fn, retries)`, with `fuel`
remaining iterations and `attempt` the current 0-based index: wait for a
slot, invoke the function (`outcomes attempt`), return its value on
success; on a 429 rejection sleep the retry delay and continue unless
this was the last permitted attempt, in which case the rejection is
rethrown; rethrow any non-429 error immediately. -/
def withRateLimitGo {α : Type} (outcomes : Nat → CallOutcome α)
    (estimatedTokens retries : Nat) :
    Nat → Nat → RateLimiter × Nat → RLRun α
  | 0, _, (rl, now) => ⟨.maxRetriesExceeded, rl, now, [], [], 0⟩
  | fuel + 1, attempt, (rl, now) =>
    let s := rl.waitForSlot estimatedTokens now
    match outcomes attempt with
    | .ok v => ⟨.ok v, s.1, s.2, [], [s.2], 1⟩
    | .fail e =>
      if e.status = some 429 then
        if attempt < retries - 1 then
          let d := retryDelay e attempt
          let rest := withRateLimitGo outcomes estimatedTokens retries fuel
            (attempt + 1) (s.1, s.2 + d)
          ⟨rest.result, rest.limiter, rest.clock, d :: rest.sleeps,
            s.2 :: rest.admissions, rest.attempts + 1⟩
        else ⟨.thrown e, s.1, s.2, [], [s.2], 1⟩
      else ⟨.thrown e, s.1, s.2, [], [s.2], 1⟩

/-- `withRateLimit(fn, retries)` (the source defaults `retries` to 5 and
estimates 1500 tokens per call). -/
def withRateLimit {α : Type} (outcomes : Nat → CallOutcome α) (retries : Nat)
    (rl : RateLimiter) (now : Nat) : RLRun α :=
  withRateLimitGo outcomes 1500 retries retries 0 (rl, now)

/-! ## Request-window lemmas -/
/-- Filtering with a pointwise-stronger predicate keeps at most as many
elements. -/
theorem length_filter_le_filter {α : Type} (l : List α) (p q : α → Bool)
    (h : ∀ x ∈ l, p x = true → q x = true) :
    (l.filter p).length ≤ (l.filter q).length := by
  induction l with
  | nil => simp
  | cons a l ih =>
    have ha := h a (by simp)
    have ih' := ih (fun x hx => h x (by simp [hx]))
    by_cases hp : p a = true
    · rw [List.filter_cons_of_pos hp, List.filter_cons_of_pos (ha hp)]
      simpa using ih'
    · rw [List.filter_cons_of_neg (by simpa using hp)]
      cases hq : q a
      · rw [List.filter_cons_of_neg (by simp [hq])]
        exact ih'
      · rw [List.filter_cons_of_pos hq]
        exact le_trans ih' (by simp)

/-- Pruning at a later clock keeps at most as many request timestamps. -/
theorem pruneRequests_length_mono (w t t' : Nat) (h : t ≤ t') (rs : List Nat) :
    (pruneRequests w t' rs).length ≤ (pruneRequests w t rs).length := by
  apply length_filter_le_filter
  intro x _ hx
  simp only [decide_eq_true_eq] at hx ⊢
  exact lt_of_le_of_lt (Nat.sub_le_sub_right h x) hx

/-- Pruning twice, the second time at a later clock, is pruning once at
the later clock. -/
theorem pruneRequests_pruneRequests (w t t' : Nat) (h : t ≤ t') (rs : List Nat) :
    pruneRequests w t' (pruneRequests w t rs) = pruneRequests w t' rs := by
  unfold pruneRequests
  rw [List.filter_filter]
  apply List.filter_congr
  intro x _
  by_cases hx : t' - x < w
  · have hx' : t - x < w := lt_of_le_of_lt (Nat.sub_le_sub_right h x) hx
    simp [hx, hx']
  · simp [hx]

/-- Case analysis of the RPM branch: either it is a no-op, or it slept
for a positive time and re-pruned both windows at the new clock. -/
theorem rpmWait_cases (w mx now : Nat) (reqs : List Nat) (toks : List TokenUsage) :
    rpmWait w mx now reqs toks = (reqs, toks, now) ∨
      ∃ wt, 0 < wt ∧ rpmWait w mx now reqs toks =
        (pruneRequests w (now + wt) reqs, pruneTokenUsage w (now + wt) toks, now + wt) := by
  unfold rpmWait
  split
  · cases hh : reqs.head? with
    | some oldest =>
      dsimp only
      split
      · exact Or.inr ⟨w - (now - oldest) + 100, by assumption, rfl⟩
      · exact Or.inl rfl
    | none => exact Or.inl rfl
  · exact Or.inl rfl

/-- Case analysis of the TPM branch: either it is a no-op, or it slept
for a positive time and pruned the token window at the new clock. -/
theorem tpmWait_cases (w mt est onow t1 : Nat) (toks : List TokenUsage) :
    tpmWait w mt est onow t1 toks = (toks, t1) ∨
      ∃ wt, 0 < wt ∧ tpmWait w mt est onow t1 toks =
        (pruneTokenUsage w (t1 + wt) toks, t1 + wt) := by
  unfold tpmWait
  split
  · cases hh : toks.head? with
    | some oldest =>
      dsimp only
      split
      · exact Or.inr ⟨w - (onow - oldest.timestamp) + 100, by assumption, rfl⟩
      · exact Or.inl rfl
    | none => exact Or.inl rfl
  · exact Or.inl rfl

/-- The TPM branch never turns the clock back. -/
theorem tpmWait_le_time (w mt est onow t1 : Nat) (toks : List TokenUsage) :
    t1 ≤ (tpmWait w mt est onow t1 toks).2 := by
  rcases tpmWait_cases w mt est onow t1 toks with h | ⟨wt, _, h⟩ <;> rw [h] <;> simp

/-- Unfolding `waitForSlot` into its two branch functions. -/
theorem waitForSlot_eq (rl : RateLimiter) (est now : Nat) :
    rl.waitForSlot est now =
      (let r := rpmWait rl.windowMs rl.maxRequests now
          (pruneRequests rl.windowMs now rl.requests)
          (pruneTokenUsage rl.windowMs now rl.tokenUsage)
       let t := tpmWait rl.windowMs rl.maxTokens est now r.2.2 r.2.1
       ({ rl with requests := r.1 ++ [t.2], tokenUsage := t.1 }, t.2)) := rfl

/-- Structure of a completed `waitForSlot` call: the resulting request
window is the original one pruned at some clock `tp` between the call
start and the call return, with exactly the return clock appended; the
configured ceilings and window length are untouched. -/
theorem waitForSlot_requests_spec (rl : RateLimiter) (est now : Nat) :
    ∃ tp, now ≤ tp ∧ tp ≤ (rl.waitForSlot est now).2 ∧
      (rl.waitForSlot est now).1.requests
        = pruneRequests rl.windowMs tp rl.requests ++ [(rl.waitForSlot est now).2] ∧
      (rl.waitForSlot est now).1.maxRequests = rl.maxRequests ∧
      (rl.waitForSlot est now).1.maxTokens = rl.maxTokens ∧
      (rl.waitForSlot est now).1.windowMs = rl.windowMs := by
  rw [waitForSlot_eq]
  dsimp only
  rcases rpmWait_cases rl.windowMs rl.maxRequests now
      (pruneRequests rl.windowMs now rl.requests)
      (pruneTokenUsage rl.windowMs now rl.tokenUsage) with h | ⟨wt, hwt, h⟩
  · rw [h]
    exact ⟨now, le_refl _, tpmWait_le_time _ _ _ _ _ _, rfl, rfl, rfl, rfl⟩
  · rw [h]
    refine ⟨now + wt, Nat.le_add_right _ _, tpmWait_le_time _ _ _ _ _ _, ?_, rfl, rfl, rfl⟩
    rw [pruneRequests_pruneRequests _ _ _ (Nat.le_add_right _ _)]

/-- After the RPM branch there is room for one more call: the surviving
request window holds at most `maxRequests - 1` timestamps, provided the
incoming window was freshly pruned and within its ceiling. -/
theorem rpmWait_room (w mx now : Nat) (reqs : List Nat) (toks : List TokenUsage)
    (hlen : reqs.length ≤ mx)
    (hpruned : ∀ x ∈ reqs, now - x < w)
    (hle : ∀ x ∈ reqs, x ≤ now) :
    (rpmWait w mx now reqs toks).1.length ≤ mx - 1 := by
  unfold rpmWait
  split
  · rename_i hge
    cases hh : reqs.head? with
    | some oldest =>
      dsimp only
      split
      · rename_i hwt
        cases reqs with
        | nil => simp at hh
        | cons a tail =>
          have ha : a = oldest := by simpa using hh
          subst ha
          have hmem : a ∈ a :: tail := by simp
          have hdrop : ¬ ((now + (w - (now - a) + 100)) - a < w) := by
            have h1 := hpruned a hmem
            have h2 := hle a hmem
            omega
          unfold pruneRequests
          rw [List.filter_cons_of_neg (by simpa using hdrop)]
          calc (List.filter _ tail).length ≤ tail.length := List.length_filter_le _ _
            _ ≤ mx - 1 := by simp at hlen hge; omega
      · rename_i hwt
        exact absurd (by omega : 0 < w - (now - oldest) + 100) hwt
    | none =>
      have : reqs = [] := by simpa using hh
      subst this
      simp
  · rename_i hlt
    dsimp only
    omega

/-- Appending one element to a bounded list keeps the pruned length
within the bound plus one. -/
theorem pruneRequests_append_le (w t : Nat) (l : List Nat) (a : Nat) (n : Nat)
    (h : l.length ≤ n) :
    (pruneRequests w t (l ++ [a])).length ≤ n + 1 := by
  unfold pruneRequests
  rw [List.filter_append, List.length_append]
  have h1 := List.length_filter_le (fun ts => decide (t - ts < w)) l
  have h2 := List.length_filter_le (fun ts => decide (t - ts < w)) [a]
  simp only [List.length_cons, List.length_nil] at h2
  omega

/-- A completed `waitForSlot` call leaves the windowed request count
within the ceiling, provided it was within the ceiling when the call
started and the ceiling is positive. -/
theorem waitForSlot_count_le (rl : RateLimiter) (est now : Nat)
    (hmax : 1 ≤ rl.maxRequests)
    (hle : ∀ x ∈ rl.requests, x ≤ now)
    (hcnt : windowedRequestCount rl now ≤ rl.maxRequests) :
    windowedRequestCount (rl.waitForSlot est now).1 (rl.waitForSlot est now).2
      ≤ rl.maxRequests := by
  have hroom : (rpmWait rl.windowMs rl.maxRequests now
      (pruneRequests rl.windowMs now rl.requests)
      (pruneTokenUsage rl.windowMs now rl.tokenUsage)).1.length ≤ rl.maxRequests - 1 := by
    apply rpmWait_room
    · exact hcnt
    · intro x hx
      have := List.of_mem_filter hx
      simpa using this
    · intro x hx
      exact hle x (List.mem_of_mem_filter hx)
  rw [waitForSlot_eq]
  dsimp only [windowedRequestCount]
  refine le_trans (pruneRequests_append_le _ _ _ _ _ hroom) ?_
  omega

/-- Advancing the clock preserves the count bound of `ReqInv`. -/
theorem windowedRequestCount_mono (rl : RateLimiter) (t t' : Nat) (h : t ≤ t') :
    windowedRequestCount rl t' ≤ windowedRequestCount rl t :=
  pruneRequests_length_mono _ _ _ h _

/-- Each limiter call preserves `ReqInv` when the request ceiling is
positive. -/
theorem limiterStep_inv (o : RateLimiterOptions) (hmax : 1 ≤ o.maxRequests)
    (s : RateLimiter × Nat) (op : LimiterOp) (h : ReqInv o s) :
    ReqInv o (limiterStep s op) := by
  obtain ⟨rl, t⟩ := s
  obtain ⟨hmx, hw, hts, hcnt⟩ := h
  cases op with
  | recordCall d tok =>
    refine ⟨hmx, hw, ?_, ?_⟩
    · intro x hx
      exact le_trans (hts x hx) (Nat.le_add_right _ _)
    · exact le_trans (windowedRequestCount_mono _ _ _ (Nat.le_add_right _ _)) hcnt
  | waitCall d est =>
    have hts' : ∀ x ∈ rl.requests, x ≤ t + d :=
      fun x hx => le_trans (hts x hx) (Nat.le_add_right _ _)
    have hcnt' : windowedRequestCount rl (t + d) ≤ rl.maxRequests := by
      rw [hmx]
      exact le_trans (windowedRequestCount_mono _ _ _ (Nat.le_add_right _ _)) hcnt
    have hmax' : 1 ≤ rl.maxRequests := hmx ▸ hmax
    obtain ⟨tp, htp1, htp2, hreq, hpmax, hpmt, hpw⟩ := waitForSlot_requests_spec rl est (t + d)
    simp only [limiterStep, ReqInv]
    refine ⟨hpmax.trans hmx, hpw.trans hw, ?_, ?_⟩
    · intro x hx
      rw [hreq] at hx
      rcases List.mem_append.1 hx with hx | hx
      · exact le_trans (le_trans (hts' x (List.mem_of_mem_filter hx)) htp1) htp2
      · simp at hx
        omega
    · rw [← hmx]
      exact waitForSlot_count_le rl est (t + d) hmax' hts' hcnt'

/-- Sequential limiter runs satisfy `ReqInv` at every point. -/
theorem runLimiter_inv (o : RateLimiterOptions) (hmax : 1 ≤ o.maxRequests)
    (ops : List LimiterOp) : ReqInv o (runLimiter o ops) := by
  have main : ∀ s, ReqInv o s → ReqInv o (ops.foldl limiterStep s) := by
    induction ops with
    | nil => exact fun s hs => hs
    | cons op ops ih => exact fun s hs => ih _ (limiterStep_inv o hmax s op hs)
  refine main _ ⟨rfl, rfl, ?_, ?_⟩
  · intro x hx
    simp [RateLimiter.ofOptions] at hx
  · simp [windowedRequestCount, RateLimiter.ofOptions, pruneRequests]

/-- Claim C1 (corrected, request half): for every sequence of
`waitForSlot` / `recordTokenUsage` calls executed sequentially against
one `RateLimiter` with a positive request ceiling, at no observation
point does the number of request timestamps inside the trailing window
exceed `maxRequests`. -/
theorem c1_request_window_within_ceiling (o : RateLimiterOptions)
    (hmax : 1 ≤ o.maxRequests) (ops : List LimiterOp) :
    windowedRequestCount (runLimiter o ops).1 (runLimiter o ops).2 ≤ o.maxRequests :=
  (runLimiter_inv o hmax ops).2.2.2

/-- Witness for claim C1: the request-window bound evaluated on the
production configuration and a concrete call sequence. -/
theorem c1_request_window_within_ceiling_witness :
    1 ≤ openaiRateLimiterOptions.maxRequests ∧
      windowedRequestCount
        (runLimiter openaiRateLimiterOptions
          [.waitCall 0 1500, .recordCall 5 900, .waitCall 10 1500]).1
        (runLimiter openaiRateLimiterOptions
          [.waitCall 0 1500, .recordCall 5 900, .waitCall 10 1500]).2
        ≤ openaiRateLimiterOptions.maxRequests :=
  ⟨by decide,
    c1_request_window_within_ceiling openaiRateLimiterOptions (by decide)
      [.waitCall 0 1500, .recordCall 5 900, .waitCall 10 1500]⟩

/-- Counterexample for claim C1 as stated: the token half fails.  With
the production configuration (28000-token ceiling, 60 s window), two
recorded usages of 100 and 27950 tokens followed by an admitted call
whose actual usage equals the 1500-token estimate leave 29450 tokens
inside the trailing window: `waitForSlot` re-checks the token window
only once after sleeping past the oldest record, and `recordTokenUsage`
appends unconditionally. -/
theorem c1_token_window_exceeded_cex :
    openaiRateLimiterOptions.maxTokens <
      windowedTokenSum
        (runLimiter openaiRateLimiterOptions
          [.recordCall 0 100, .recordCall 300 27950, .waitCall 100 1500,
            .recordCall 0 1500]).1
        (runLimiter openaiRateLimiterOptions
          [.recordCall 0 100, .recordCall 300 27950, .waitCall 100 1500,
            .recordCall 0 1500]).2 := by
  decide

/-! ## Claim C5: two-tier delivery with single inline retry -/
/-- Claim C5: in `analyzeImageWithPromptUsingUrl`, when the signed-URL
provider call fails with an error classified as an image-fetch timeout,
exactly one retry is performed and its payload is the inline
base64-encoded bytes fetched from the object store; when it fails with
any other error class, no retry is performed at this layer and the
error is rethrown unchanged. -/
theorem c5_fallback_retry_policy (signedUrl imagePath : String)
    (prompt : AnalysisPrompt) (env : PromptEnv) (e : JsError)
    (h : env.tier1 = .error e) :
    (isTimeoutError e = true →
      (analyzeImageWithPromptUsingUrl signedUrl imagePath prompt env).1
        = [.url signedUrl, .inlineBase64 env.base64]) ∧
    (isTimeoutError e = false →
      (analyzeImageWithPromptUsingUrl signedUrl imagePath prompt env).1
          = [.url signedUrl] ∧
        (analyzeImageWithPromptUsingUrl signedUrl imagePath prompt env).2
          = .error e) := by
  constructor
  · intro htimeout
    unfold analyzeImageWithPromptUsingUrl
    rw [h]
    simp only [htimeout, if_true]
    cases env.tier2 with
    | ok parsed => rfl
    | error e2 => rfl
  · intro htimeout
    unfold analyzeImageWithPromptUsingUrl
    rw [h]
    simp only [htimeout]
    exact ⟨rfl, rfl⟩

/-- Witness for claim C5: a 400 timeout-while-downloading error triggers
exactly the two-payload sequence, and a 500 non-timeout error is
rethrown after the single signed-URL attempt. -/
theorem c5_fallback_retry_policy_witness :
    ((analyzeImageWithPromptUsingUrl "https://signed" "img/a.jpg"
        ⟨"crowd_detection", "Crowd Detection", "o", "l", "c"⟩
        ⟨.error ⟨some 400, "Timeout while downloading image"⟩, "data:image/jpeg;base64,QUJD",
          .ok (.obj [])⟩).1
      = [.url "https://signed", .inlineBase64 "data:image/jpeg;base64,QUJD"]) ∧
    ((analyzeImageWithPromptUsingUrl "https://signed" "img/a.jpg"
        ⟨"crowd_detection", "Crowd Detection", "o", "l", "c"⟩
        ⟨.error ⟨some 500, "Internal server error"⟩, "data:image/jpeg;base64,QUJD",
          .ok (.obj [])⟩).1
      = [.url "https://signed"]) :=
  ⟨(c5_fallback_retry_policy "https://signed" "img/a.jpg"
      ⟨"crowd_detection", "Crowd Detection", "o", "l", "c"⟩
      ⟨.error ⟨some 400, "Timeout while downloading image"⟩, "data:image/jpeg;base64,QUJD",
        .ok (.obj [])⟩
      ⟨some 400, "Timeout while downloading image"⟩ rfl).1 (by decide),
   ((c5_fallback_retry_policy "https://signed" "img/a.jpg"
      ⟨"crowd_detection", "Crowd Detection", "o", "l", "c"⟩
      ⟨.error ⟨some 500, "Internal server error"⟩, "data:image/jpeg;base64,QUJD",
        .ok (.obj [])⟩
      ⟨some 500, "Internal server error"⟩ rfl).2 (by decide)).1⟩

/-! ## Claim C6: count normalization -/
/-- Claim C6 (corrected): `parseAnalysisResponse` passes a numeric
`count` through unchanged and sums the numeric values of a keyed
breakdown object (non-numeric values contributing 0); it does not
enforce non-negativity. -/
theorem c6_count_normalization (fields : List (String × JValue)) (n : Int)
    (fs : List (String × JValue)) :
    (jGet (.obj fields) "count" = some (.num n) →
      (parseAnalysisResponse (.obj fields)).count = n) ∧
    (jGet (.obj fields) "count" = some (.obj fs) →
      (parseAnalysisResponse (.obj fields)).count
        = (fs.map (fun kv => kv.2)).foldl (fun sum val => sum + numOrZero val) 0) := by
  constructor
  · intro h
    simp [parseAnalysisResponse, normalizeCount, h]
  · intro h
    simp [parseAnalysisResponse, normalizeCount, h]

/-- Witness for claim C6: the breakdown `{a: 2, b: 3}` normalizes to the
scalar 5. -/
theorem c6_count_normalization_witness :
    (parseAnalysisResponse
        (.obj [("count", .obj [("a", .num 2), ("b", .num 3)])])).count = 5 :=
  ((c6_count_normalization [("count", .obj [("a", .num 2), ("b", .num 3)])] 0
      [("a", .num 2), ("b", .num 3)]).2 rfl).trans (by decide)

/-- Counterexample for claim C6 as stated: a provider response with a
negative scalar `count` is passed through, so the normalized count is
not a non-negative scalar. -/
theorem c6_nonnegative_count_cex :
    ¬ (0 ≤ (parseAnalysisResponse (.obj [("count", .num (-1))])).count) := by
  decide

/-! ## Claim C7: per-image result completeness -/
/-- The selected prompt list is always a sublist of the built-in set. -/
theorem promptsToUse_sublist (sel : Option (List String)) :
    (promptsToUse sel).Sublist ANALYSIS_PROMPTS := by
  unfold promptsToUse
  cases sel with
  | none => exact List.Sublist.refl _
  | some ids =>
    dsimp only
    by_cases h : 0 < ids.length
    · rw [if_pos h]
      exact List.filter_sublist _
    · rw [if_neg h]

/-- The ids of the built-in prompts are pairwise distinct. -/
theorem analysisPrompts_ids_nodup : (ANALYSIS_PROMPTS.map (fun p => p.id)).Nodup := by
  decide

/-- The ids of any selected prompt list are pairwise distinct. -/
theorem promptsToUse_ids_nodup (sel : Option (List String)) :
    ((promptsToUse sel).map (fun p => p.id)).Nodup :=
  List.Nodup.sublist (List.Sublist.map _ (promptsToUse_sublist sel)) analysisPrompts_ids_nodup

/-- Whatever one prompt evaluation does — succeed on either tier or
throw — the result entry pushed for it carries that prompt's id. -/
theorem promptEntry_promptId (signedUrl imagePath : String) (p : AnalysisPrompt)
    (env : PromptEnv) :
    (match (analyzeImageWithPromptUsingUrl signedUrl imagePath p env).2 with
      | .ok result => result
      | .error e => failedAnalysisResult p e).promptId = .str p.id := by
  unfold analyzeImageWithPromptUsingUrl
  cases env.tier1 with
  | ok parsed => rfl
  | error urlError =>
    cases htime : isTimeoutError urlError with
    | true =>
      simp only [htime, if_true]
      cases env.tier2 with
      | ok parsed => rfl
      | error e2 => rfl
    | false =>
      simp only [htime, Bool.false_eq_true, if_false]
      rfl

/-- Claim C7: a successful `analyzeImage` returns exactly one result per
prompt of the prompt set used for that image, with each `promptId`
unique and drawn (in order) from that prompt set; a failed image returns
the empty result list. -/
theorem c7_result_completeness (imagePath filename date cameraType : String)
    (sel : Option (List String)) (urlResult : Except JsError String)
    (env : AnalysisPrompt → PromptEnv) :
    ((analyzeImage imagePath filename date cameraType sel urlResult env).status
        = .success →
      (analyzeImage imagePath filename date cameraType sel urlResult env).results.length
          = (promptsToUse sel).length ∧
        (analyzeImage imagePath filename date cameraType sel urlResult env).results.map
            (fun r => r.promptId)
          = (promptsToUse sel).map (fun p => JValue.str p.id) ∧
        ((analyzeImage imagePath filename date cameraType sel urlResult env).results.map
            (fun r => r.promptId)).Nodup) ∧
    ((analyzeImage imagePath filename date cameraType sel urlResult env).status
        = .error →
      (analyzeImage imagePath filename date cameraType sel urlResult env).results = []) := by
  cases urlResult with
  | error e =>
    constructor
    · intro h
      simp [analyzeImage] at h
    · intro _
      simp [analyzeImage]
  | ok signedUrl =>
    have hmap :
        (analyzeImage imagePath filename date cameraType sel (.ok signedUrl) env).results.map
            (fun r => r.promptId)
          = (promptsToUse sel).map (fun p => JValue.str p.id) := by
      simp only [analyzeImage, List.map_map]
      apply List.map_congr_left
      intro p _
      exact promptEntry_promptId signedUrl imagePath p (env p)
    constructor
    · intro _
      refine ⟨?_, hmap, ?_⟩
      · simp [analyzeImage]
      · rw [hmap]
        have hinj : Function.Injective (fun s => JValue.str s) := by
          intro a b hab
          injection hab
        have hnd := List.Nodup.map hinj (promptsToUse_ids_nodup sel)
        simpa [List.map_map, Function.comp] using hnd
    · intro h
      simp [analyzeImage] at h

/-- Witness for claim C7: a successful image with the full prompt set
gets six uniquely-identified results; an image whose URL derivation
throws gets `status = error` and no results. -/
theorem c7_result_completeness_witness :
    ((analyzeImage "d/f.jpg" "f.jpg" "2025-01-01" "FIXED" none (.ok "https://u")
          (fun _ => ⟨.ok (.obj []), "", .ok (.obj [])⟩)).results.length
        = (promptsToUse none).length ∧
      (analyzeImage "d/f.jpg" "f.jpg" "2025-01-01" "FIXED" none (.ok "https://u")
          (fun _ => ⟨.ok (.obj []), "", .ok (.obj [])⟩)).results.map (fun r => r.promptId)
        = (promptsToUse none).map (fun p => JValue.str p.id) ∧
      ((analyzeImage "d/f.jpg" "f.jpg" "2025-01-01" "FIXED" none (.ok "https://u")
          (fun _ => ⟨.ok (.obj []), "", .ok (.obj [])⟩)).results.map
          (fun r => r.promptId)).Nodup) ∧
    (analyzeImage "d/f.jpg" "f.jpg" "2025-01-01" "FIXED" none
        (.error ⟨none, "Could not sign URL"⟩)
        (fun _ => ⟨.ok (.obj []), "", .ok (.obj [])⟩)).results = [] :=
  ⟨(c7_result_completeness "d/f.jpg" "f.jpg" "2025-01-01" "FIXED" none (.ok "https://u")
      (fun _ => ⟨.ok (.obj []), "", .ok (.obj [])⟩)).1 rfl,
   (c7_result_completeness "d/f.jpg" "f.jpg" "2025-01-01" "FIXED" none
      (.error ⟨none, "Could not sign URL"⟩)
      (fun _ => ⟨.ok (.obj []), "", .ok (.obj [])⟩)).2 rfl⟩

/-! ## Claim C9: fixed-size concurrency groups -/
/-- Concatenating the concurrency groups recovers the task list. -/
theorem toBatches_flatten {α : Type} : (xs : List α) → (toBatches xs).flatten = xs
  | [] => rfl
  | [a] => rfl
  | [a, b] => rfl
  | [a, b, c] => rfl
  | a :: b :: c :: d :: rest => by
    simp [toBatches, toBatches_flatten rest]

/-- A list of `n` tasks yields exactly `⌈n / 4⌉` concurrency groups. -/
theorem toBatches_length {α : Type} : (xs : List α) → (toBatches xs).length = (xs.length + 3) / 4
  | [] => by simp [toBatches]
  | [a] => by simp [toBatches]
  | [a, b] => by simp [toBatches]
  | [a, b, c] => by simp [toBatches]
  | a :: b :: c :: d :: rest => by
    have ih := toBatches_length rest
    simp only [toBatches, List.length_cons, ih]
    omega

/-- Every concurrency group holds at most four tasks. -/
theorem toBatches_sizes {α : Type} : (xs : List α) → ∀ g ∈ toBatches xs, g.length ≤ 4
  | [] => by simp [toBatches]
  | [a] => by simp [toBatches]
  | [a, b] => by simp [toBatches]
  | [a, b, c] => by simp [toBatches]
  | a :: b :: c :: d :: rest => by
    intro g hg
    simp only [toBatches, List.mem_cons] at hg
    rcases hg with rfl | hg
    · simp
    · exact toBatches_sizes rest g hg

/-- Claim C9: `analyzeImages` splits the task list into fixed-size
concurrency groups of four, processed group by group: the groups
concatenate back to the input, there are exactly `⌈n / 4⌉` of them, none
exceeds four tasks, the result list is the group-by-group concatenation
of per-image analyses, and a 10-element list yields groups of sizes
4, 4, 2. -/
theorem c9_concurrency_groups (images : List ImageInput)
    (sel : Option (List String))
    (urlOf : ImageInput → Except JsError String)
    (envOf : ImageInput → AnalysisPrompt → PromptEnv) :
    (toBatches images).flatten = images ∧
      (toBatches images).length = (images.length + 3) / 4 ∧
      (∀ g ∈ toBatches images, g.length ≤ 4) ∧
      (analyzeImages images sel urlOf envOf).1
        = ((toBatches images).map (fun batch => batch.map (fun image =>
            analyzeImage image.path image.filename image.date image.cameraType sel
              (urlOf image) (envOf image)))).flatten ∧
      (toBatches (List.range 10)).map List.length = [4, 4, 2] := by
  refine ⟨toBatches_flatten images, toBatches_length images, toBatches_sizes images, ?_,
    by decide⟩
  unfold analyzeImages
  have main : ∀ (bs : List (List ImageInput))
      (acc : List ImageAnalysisResult × List ProgressEvent),
      (bs.foldl (fun acc batch =>
          let batchResults := batch.map (fun image =>
            analyzeImage image.path image.filename image.date image.cameraType sel
              (urlOf image) (envOf image))
          let results := acc.1 ++ batchResults
          (results, acc.2 ++ batchResults.map (fun r => ⟨results.length, images.length, r⟩)))
        acc).1
      = acc.1 ++ (bs.map (fun batch => batch.map (fun image =>
          analyzeImage image.path image.filename image.date image.cameraType sel
            (urlOf image) (envOf image)))).flatten := by
    intro bs
    induction bs with
    | nil => intro acc; simp
    | cons b bs ih =>
      intro acc
      rw [List.foldl_cons, ih]
      simp
  simpa using main (toBatches images) ([], [])

/-- Witness for claim C9: the group-size bound instantiated on a
concrete one-image batch. -/
theorem c9_concurrency_groups_witness :
    ([(⟨"d/a.jpg", none, "a.jpg", "2025-01-01", "FIXED"⟩ : ImageInput)]).length ≤ 4 :=
  (c9_concurrency_groups [⟨"d/a.jpg", none, "a.jpg", "2025-01-01", "FIXED"⟩] none
      (fun _ => .ok "https://u")
      (fun _ _ => ⟨.ok (.obj []), "", .ok (.obj [])⟩)).2.2.1
    [⟨"d/a.jpg", none, "a.jpg", "2025-01-01", "FIXED"⟩] (by decide)

/-! ## Claim C10: slot accounting -/
/-- Claim C10: every completed `waitForSlot` appends exactly one
timestamp to the request window and removes entries only by window
expiry (the survivors are exactly a pruning of the old window);
`recordTokenUsage` never touches the request window; and inside
`withRateLimit` every attempt — successful, rethrown or retried —
completes exactly one `waitForSlot`, so each retry consumes one more
request slot. -/
theorem c10_slot_accounting :
    (∀ (rl : RateLimiter) (est now : Nat), ∃ tp, now ≤ tp ∧
        tp ≤ (rl.waitForSlot est now).2 ∧
        (rl.waitForSlot est now).1.requests
          = pruneRequests rl.windowMs tp rl.requests ++ [(rl.waitForSlot est now).2]) ∧
    (∀ (rl : RateLimiter) (tokens now : Nat),
        (rl.recordTokenUsage tokens now).requests = rl.requests) ∧
    (∀ (α : Type) (outcomes : Nat → CallOutcome α) (est retries fuel attempt : Nat)
        (s : RateLimiter × Nat),
        (withRateLimitGo outcomes est retries fuel attempt s).admissions.length
          = (withRateLimitGo outcomes est retries fuel attempt s).attempts) := by
  refine ⟨?_, ?_, ?_⟩
  · intro rl est now
    obtain ⟨tp, h1, h2, h3, _⟩ := waitForSlot_requests_spec rl est now
    exact ⟨tp, h1, h2, h3⟩
  · intro rl tokens now
    rfl
  · intro α outcomes est retries fuel
    induction fuel with
    | zero =>
      intro attempt s
      rfl
    | succ fuel ih =>
      intro attempt s
      obtain ⟨rl, now⟩ := s
      unfold withRateLimitGo
      dsimp only
      cases outcomes attempt with
      | ok v => rfl
      | fail e =>
        dsimp only
        by_cases h429 : e.status = some 429
        · rw [if_pos h429]
          by_cases hatt : attempt < retries - 1
          · rw [if_pos hatt]
            dsimp only
            simp [ih]
          · rw [if_neg hatt]
            rfl
        · rw [if_neg h429]
          rfl

/-! ## Claim C8: retry policy of `withRateLimit` -/
/-- The retry loop never makes more attempts than it has fuel. -/
theorem withRateLimitGo_attempts_le {α : Type} (outcomes : Nat → CallOutcome α)
    (est retries : Nat) :
    ∀ (fuel attempt : Nat) (s : RateLimiter × Nat),
      (withRateLimitGo outcomes est retries fuel attempt s).attempts ≤ fuel := by
  intro fuel
  induction fuel with
  | zero =>
    intro attempt s
    exact Nat.le_refl _ |>.trans (by rfl)
  | succ fuel ih =>
    intro attempt s
    obtain ⟨rl, now⟩ := s
    unfold withRateLimitGo
    dsimp only
    cases outcomes attempt with
    | ok v => exact Nat.le_add_left _ _
    | fail e =>
      dsimp only
      by_cases h429 : e.status = some 429
      · rw [if_pos h429]
        by_cases hatt : attempt < retries - 1
        · rw [if_pos hatt]
          dsimp only
          exact Nat.succ_le_succ (ih _ _)
        · rw [if_neg hatt]
          exact Nat.succ_le_succ (Nat.zero_le _)
      · rw [if_neg h429]
        exact Nat.succ_le_succ (Nat.zero_le _)

/-- Shape of a run in which every attempt is rejected with a 429: the
loop uses all its fuel, sleeps the computed retry delay between
consecutive attempts, and finally rethrows the last rejection. -/
theorem withRateLimitGo_all429 {α : Type} (errs : Nat → ApiError)
    (h429 : ∀ k, (errs k).status = some 429) (est retries : Nat) :
    ∀ (fuel attempt : Nat) (s : RateLimiter × Nat), 0 < fuel → fuel + attempt = retries →
      (withRateLimitGo (fun k => (CallOutcome.fail (errs k) : CallOutcome α))
          est retries fuel attempt s).result = RLResult.thrown (errs (retries - 1)) ∧
      (withRateLimitGo (fun k => (CallOutcome.fail (errs k) : CallOutcome α))
          est retries fuel attempt s).attempts = fuel ∧
      (withRateLimitGo (fun k => (CallOutcome.fail (errs k) : CallOutcome α))
          est retries fuel attempt s).sleeps
        = (List.range' attempt (fuel - 1)).map (fun k => retryDelay (errs k) k) := by
  intro fuel
  induction fuel with
  | zero =>
    intro attempt s h0 _
    exact absurd h0 (by omega)
  | succ fuel ih =>
    intro attempt s _ hsum
    obtain ⟨rl, now⟩ := s
    unfold withRateLimitGo
    dsimp only
    rw [if_pos (h429 attempt)]
    rcases Nat.eq_zero_or_pos fuel with hf0 | hfpos
    · subst hf0
      have hnot : ¬ attempt < retries - 1 := by omega
      rw [if_neg hnot]
      have hatt : attempt = retries - 1 := by omega
      subst hatt
      exact ⟨rfl, rfl, by simp⟩
    · have hlt : attempt < retries - 1 := by omega
      rw [if_pos hlt]
      dsimp only
      obtain ⟨hres, hatts, hsle⟩ := ih (attempt + 1)
        ((rl.waitForSlot est now).1,
          (rl.waitForSlot est now).2 + retryDelay (errs attempt) attempt)
        hfpos (by omega)
      refine ⟨hres, by simp [hatts], ?_⟩
      rw [hsle]
      have hf : fuel + 1 - 1 = (fuel - 1) + 1 := by omega
      rw [hf, List.range'_succ, List.map_cons]

/-- Claim C8: under `withRateLimit` with the default cap of 5 attempts,
a call rejected with status 429 on every attempt sleeps, before each
retry, exactly the provider-supplied `retry-after-ms` hint, else the
`retry-after` hint in seconds times 1000, else the backoff
`(attempt + 1) * 2000` (2 s, 4 s, 6 s, ...); the loop stops after 5
attempts and rethrows the last rejection to the caller; a rejection that
is not a 429 is rethrown immediately with no retry; and no run ever
makes more than 5 attempts. -/
theorem c8_rate_limit_retry_policy {α : Type} (rl : RateLimiter) (now : Nat)
    (errs : Nat → ApiError) (h429 : ∀ k, (errs k).status = some 429) :
    (withRateLimit (fun k => (CallOutcome.fail (errs k) : CallOutcome α)) 5 rl now).result
        = RLResult.thrown (errs 4) ∧
      (withRateLimit (fun k => (CallOutcome.fail (errs k) : CallOutcome α)) 5 rl now).attempts
        = 5 ∧
      (withRateLimit (fun k => (CallOutcome.fail (errs k) : CallOutcome α)) 5 rl now).sleeps
        = (List.range 4).map (fun k => retryDelay (errs k) k) ∧
      (∀ (e : ApiError) (k ms : Nat), e.retryAfterMs = some ms → retryDelay e k = ms) ∧
      (∀ (e : ApiError) (k s : Nat), e.retryAfterMs = none → e.retryAfterSec = some s →
        retryDelay e k = s * 1000) ∧
      (∀ (e : ApiError) (k : Nat), e.retryAfterMs = none → e.retryAfterSec = none →
        retryDelay e k = (k + 1) * 2000) ∧
      (∀ (outcomes : Nat → CallOutcome α) (e : ApiError), outcomes 0 = .fail e →
        ¬ e.status = some 429 →
        (withRateLimit outcomes 5 rl now).result = .thrown e ∧
          (withRateLimit outcomes 5 rl now).attempts = 1 ∧
          (withRateLimit outcomes 5 rl now).sleeps = []) ∧
      (∀ (outcomes : Nat → CallOutcome α),
        (withRateLimit outcomes 5 rl now).attempts ≤ 5) := by
  obtain ⟨hres, hatts, hsle⟩ :=
    @withRateLimitGo_all429 α errs h429 1500 5 5 0 (rl, now) (by omega) (by omega)
  refine ⟨hres, hatts, ?_, ?_, ?_, ?_, ?_, ?_⟩
  · rw [withRateLimit, hsle, List.range_eq_range' 4]
  · intro e k ms h
    unfold retryDelay
    rw [h]
  · intro e k s h1 h2
    unfold retryDelay
    rw [h1, h2]
  · intro e k h1 h2
    unfold retryDelay
    rw [h1, h2]
  · intro outcomes e hout hst
    unfold withRateLimit withRateLimitGo
    dsimp only
    rw [hout]
    dsimp only
    rw [if_neg hst]
    exact ⟨rfl, rfl, rfl⟩
  · intro outcomes
    exact withRateLimitGo_attempts_le outcomes 1500 5 5 0 (rl, now)

/-- Witness for claim C8: a hintless always-429 provider makes the five
capped attempts and rethrows the rejection. -/
theorem c8_rate_limit_retry_policy_witness :
    (withRateLimit
        (fun k => (CallOutcome.fail (⟨some 429, none, none, "Rate limit reached"⟩ : ApiError)
          : CallOutcome Unit))
        5 (RateLimiter.ofOptions openaiRateLimiterOptions) 0).attempts = 5 :=
  (c8_rate_limit_retry_policy (RateLimiter.ofOptions openaiRateLimiterOptions) 0
      (fun _ => ⟨some 429, none, none, "Rate limit reached"⟩)
      (fun _ => rfl)).2.1

/-! ## Claim C2: the terminal flush and the partial flag -/
/-- Claim C2 (corrected): the terminal `saveIncremental(true)` of a
graceful run writes a document whose `isPartial` flag equals whether a
checkpoint path already existed — `false` only when the final flush is
the very first one, `true` whenever an earlier incremental flush created
the checkpoint; the write goes to the existing checkpoint path when
there is one. -/
theorem c2_terminal_flush_partial_flag (st : StreamSaveState)
    (results : List ImageAnalysisResult) (md : SaveMetadata) (ts : String)
    (h : results ≠ []) :
    ∃ doc path,
      saveIncremental st results md true ts
          = (⟨some (st.checkpointPath.getD path)⟩, some (doc, path)) ∧
        doc.isPartial = st.checkpointPath.isSome ∧
        path = savePathFor st.checkpointPath ts := by
  unfold saveIncremental
  rw [if_neg (by simpa [List.length_eq_zero] using h)]
  exact ⟨(saveAnalysisResults results md st.checkpointPath ts).1,
    (saveAnalysisResults results md st.checkpointPath ts).2, rfl, rfl, rfl⟩

/-- Witness for claim C2: a first-and-final flush of one result. -/
theorem c2_terminal_flush_partial_flag_witness :
    ∃ doc path,
      saveIncremental (⟨none⟩ : StreamSaveState)
          [⟨"a.jpg", "d/a.jpg", "2025-01-01", "FIXED", [], .success, none⟩]
          ⟨some "2025-01-01", some "FIXED", some 1⟩ true "20250101_000000"
          = (⟨some ((none : Option String).getD path)⟩, some (doc, path)) ∧
        doc.isPartial = (none : Option String).isSome ∧
        path = savePathFor none "20250101_000000" :=
  c2_terminal_flush_partial_flag ⟨none⟩
    [⟨"a.jpg", "d/a.jpg", "2025-01-01", "FIXED", [], .success, none⟩]
    ⟨some "2025-01-01", some "FIXED", some 1⟩ "20250101_000000"
    (List.cons_ne_nil _ _)

/-- Counterexample for claim C2 as stated: a graceful run that made one
incremental flush before completing writes its terminal (final) flush
with `isPartial = true`, not `false` — the existing checkpoint path is
passed in, and `saveAnalysisResults` marks every write to an existing
path as partial. -/
theorem c2_terminal_flush_not_final_cex :
    ((saveIncremental
          (saveIncremental (⟨none⟩ : StreamSaveState)
            [⟨"a.jpg", "d/a.jpg", "2025-01-01", "FIXED", [], .success, none⟩]
            ⟨some "2025-01-01", some "FIXED", some 1⟩ false "20250101_000000").1
          [⟨"a.jpg", "d/a.jpg", "2025-01-01", "FIXED", [], .success, none⟩]
          ⟨some "2025-01-01", some "FIXED", some 1⟩ true "20250101_000100").2.map
        (fun saved => saved.1.isPartial)) = some true := rfl

/-! ## Claim C3: checkpoint path reuse across flushes -/
/-- A match found in a list prefix is found in the whole list. -/
theorem find?_append_of_found {α : Type} (l l' : List α) (p : α → Bool) (y : α)
    (h : l.find? p = some y) : (l ++ l').find? p = some y := by
  induction l with
  | nil => simp [List.find?] at h
  | cons a l ih =>
    rw [List.cons_append]
    cases hp : p a
    · simp only [List.find?, hp] at h ⊢
      exact ih h
    · simp only [List.find?, hp] at h ⊢
      exact h

/-- Searching past a prefix with no match searches the suffix. -/
theorem find?_append_of_none {α : Type} (l l' : List α) (p : α → Bool)
    (h : l.find? p = none) : (l ++ l').find? p = l'.find? p := by
  induction l with
  | nil => rfl
  | cons a l ih =>
    rw [List.cons_append]
    cases hp : p a
    · simp only [List.find?, hp] at h ⊢
      exact ih h
    · simp only [List.find?, hp] at h
      exact absurd h (by simp)

/-- Filtering with a predicate implied by the search predicate does not
change the first match. -/
theorem find?_filter_of_imp {α : Type} (l : List α) (p q : α → Bool)
    (h : ∀ x, p x = true → q x = true) :
    (l.filter q).find? p = l.find? p := by
  induction l with
  | nil => rfl
  | cons a l ih =>
    cases hp : p a
    · cases hq : q a
      · rw [List.filter_cons_of_neg (by simp [hq])]
        rw [ih]
        simp only [List.find?, hp]
      · rw [List.filter_cons_of_pos hq]
        simp only [List.find?, hp]
        exact ih
    · have hqa := h a hp
      rw [List.filter_cons_of_pos hqa]
      simp only [List.find?, hp]

/-- The shared checkpoint path is always the path of the first completed
write: unset while nothing has been written, and fixed to the first
write forever after, whatever the interleaving of flushes. -/
theorem runFlushes_checkpoint_eq_head (events : List FlushEvent) :
    (runFlushes events).checkpointPath = (runFlushes events).writes.head? := by
  unfold runFlushes
  have main : ∀ (es : List FlushEvent) (m : FlushMachine),
      m.checkpointPath = m.writes.head? →
      (es.foldl flushStep m).checkpointPath = (es.foldl flushStep m).writes.head? := by
    intro es
    induction es with
    | nil => exact fun m hm => hm
    | cons e es ih =>
      intro m hm
      rw [List.foldl_cons]
      apply ih
      cases e with
      | start i ts => simpa [flushStep] using hm
      | finish i =>
        unfold flushStep
        cases hf : m.pending.find? (fun kv => kv.1 == i) with
        | none =>
          simp only [hf]
          exact hm
        | some kv =>
          simp only [hf]
          cases hw : m.writes with
          | nil =>
            rw [hw] at hm
            simp only [List.head?] at hm
            simp [hm, hw]
          | cons w ws =>
            rw [hw] at hm
            simp only [List.head?] at hm
            simp [hm, hw]
  exact main events FlushMachine.init rfl

/-- Finishing a flush whose pending entry is found appends exactly that
entry's path to the write log. -/
theorem flushStep_finish_found (m : FlushMachine) (i : Nat) (kv : Nat × String)
    (h : m.pending.find? (fun e => e.1 == i) = some kv) :
    (flushStep m (.finish i)).writes = m.writes ++ [kv.2] := by
  unfold flushStep
  simp only [h]

/-- Claim C3 (corrected): every flush that starts after some flush has
completed — however many other flushes are still in flight or interleave
before it finishes — writes to the path of the first completed flush.
`pre` is any schedule after which some write exists (with `p0` the first
written path), the flush under study is `id` (fresh: no in-flight flush
shares it, and no interleaved event in `mid` names it, matching the
source where every save invocation is a distinct flush), and the
conclusion says its finish writes exactly `p0`. -/
theorem c3_flush_after_completion_reuses_path (pre mid : List FlushEvent)
    (id : Nat) (ts p0 : String)
    (hcompleted : (runFlushes pre).writes.head? = some p0)
    (hfresh : (runFlushes pre).pending.find? (fun kv => kv.1 == id) = none)
    (hmid : ∀ e ∈ mid, ¬ e.id = id) :
    (runFlushes (pre ++ FlushEvent.start id ts :: (mid ++ [FlushEvent.finish id]))).writes
      = (runFlushes (pre ++ FlushEvent.start id ts :: mid)).writes ++ [p0] := by
  have hcp : (runFlushes pre).checkpointPath = some p0 := by
    rw [runFlushes_checkpoint_eq_head]
    exact hcompleted
  have hstart : flushStep (runFlushes pre) (.start id ts)
      = { runFlushes pre with pending := (runFlushes pre).pending ++ [(id, p0)] } := by
    simp [flushStep, hcp, savePathFor]
  have hrun : ∀ es : List FlushEvent,
      runFlushes (pre ++ FlushEvent.start id ts :: es)
        = es.foldl flushStep (flushStep (runFlushes pre) (.start id ts)) := by
    intro es
    unfold runFlushes
    rw [List.foldl_append, List.foldl_cons]
  have hQ : ∀ (es : List FlushEvent) (m : FlushMachine),
      (∀ e ∈ es, ¬ e.id = id) →
      m.pending.find? (fun kv => kv.1 == id) = some (id, p0) →
      (es.foldl flushStep m).pending.find? (fun kv => kv.1 == id) = some (id, p0) := by
    intro es
    induction es with
    | nil => exact fun m _ hm => hm
    | cons e es ih =>
      intro m hes hm
      rw [List.foldl_cons]
      apply ih _ (fun e' he' => hes e' (List.mem_cons_of_mem _ he'))
      cases e with
      | start i ts' =>
        simp only [flushStep]
        exact find?_append_of_found _ _ _ _ hm
      | finish i =>
        have hine : ¬ i = id := by
          have := hes (.finish i) (List.mem_cons_self _ _)
          simpa [FlushEvent.id] using this
        simp only [flushStep]
        cases hf : m.pending.find? (fun kv => kv.1 == i) with
        | none => exact hm
        | some kv =>
          dsimp only
          rw [find?_filter_of_imp]
          · exact hm
          · intro x hx
            simp only [beq_iff_eq] at hx
            simp only [Bool.not_eq_true', beq_eq_false_iff_ne, ne_eq]
            omega
  have hm2 : (runFlushes (pre ++ FlushEvent.start id ts :: mid)).pending.find?
      (fun kv => kv.1 == id) = some (id, p0) := by
    rw [hrun]
    apply hQ mid _ hmid
    rw [hstart]
    dsimp only
    rw [find?_append_of_none _ _ _ hfresh]
    simp [List.find?]
  have hsplit : pre ++ FlushEvent.start id ts :: (mid ++ [FlushEvent.finish id])
      = (pre ++ FlushEvent.start id ts :: mid) ++ [FlushEvent.finish id] := by
    simp
  rw [hsplit]
  show (runFlushes ((pre ++ FlushEvent.start id ts :: mid) ++ [FlushEvent.finish id])).writes = _
  unfold runFlushes
  rw [List.foldl_append]
  simp only [List.foldl_cons, List.foldl_nil]
  unfold runFlushes at hm2
  exact flushStep_finish_found _ id (id, p0) hm2

/-- Witness for claim C3: after one completed flush, a second flush that
starts later — with a third flush started and still in flight before it
finishes — writes the first flush's path. -/
theorem c3_flush_after_completion_reuses_path_witness :
    (runFlushes ([.start 0 "20250101_000000", .finish 0]
          ++ FlushEvent.start 1 "20250101_000100"
            :: ([.start 2 "20250101_000200"] ++ [FlushEvent.finish 1]))).writes
      = (runFlushes ([.start 0 "20250101_000000", .finish 0]
          ++ FlushEvent.start 1 "20250101_000100"
            :: [.start 2 "20250101_000200"])).writes
        ++ ["results/20250101_000000/results.json"] :=
  c3_flush_after_completion_reuses_path
    [.start 0 "20250101_000000", .finish 0] [.start 2 "20250101_000200"]
    1 "20250101_000100" "results/20250101_000000/results.json"
    (by decide) (by decide) (by decide)

/-- Counterexample for claim C3 as stated: two flushes that both start
while no flush has finished (a second save triggered while the first
fire-and-forget save is still in flight) each pick a fresh timestamped
path, so the run creates two distinct checkpoint objects. -/
theorem c3_overlapping_first_flushes_cex :
    (runFlushes [.start 1 "20250101_000000", .start 2 "20250101_000001",
        .finish 1, .finish 2]).writes
        = ["results/20250101_000000/results.json",
           "results/20250101_000001/results.json"] ∧
      ("results/20250101_000000/results.json" : String)
        ≠ "results/20250101_000001/results.json" :=
  ⟨rfl, by decide⟩

/-! ## Claim C4: terminal error events -/
/-- Error counting distributes over concatenation. -/
theorem errorEventCount_append (a b : List StreamEvent) :
    errorEventCount (a ++ b) = errorEventCount a + errorEventCount b := by
  unfold errorEventCount
  rw [List.filter_append, List.length_append]

/-- The per-image progress callback emits no error events. -/
theorem errorEventCount_callback (s : RouteScenario) :
    errorEventCount (callbackEvents s) = 0 := by
  unfold callbackEvents
  generalize List.range s.imagesCount = l
  induction l with
  | nil => rfl
  | cons a l ih =>
    rw [List.flatMap_cons, errorEventCount_append, ih]
    rfl

/-- The inner analysis-failure handler emits exactly one error event. -/
theorem errorEventCount_innerCatch (s : RouteScenario) :
    errorEventCount (innerCatchEvents s) = 1 := by
  unfold innerCatchEvents
  by_cases h : 0 < s.resultsAtFailure
  · rw [if_pos h]
    by_cases hr : s.rescueSaveOk = true
    · rw [if_pos hr]
      rfl
    · rw [if_neg hr]
      rfl
  · rw [if_neg h]
    rfl

/-- The outer stream-failure handler emits exactly one error event. -/
theorem errorEventCount_outerCatch (s : RouteScenario) :
    errorEventCount (outerCatchEvents s) = 1 := by
  unfold outerCatchEvents
  rw [errorEventCount_append]
  by_cases h : 0 < s.resultsAtFailure
  · rw [if_pos h]
    by_cases hr : s.rescueSaveOk = true
    · rw [if_pos hr]
      rfl
    · rw [if_neg hr]
      rfl
  · rw [if_neg h]
    rfl

/-- Claim C4 (corrected): a run that completes gracefully (analysis and
final save both resolve) emits zero `error` events; a run failing
validation or input listing (body parse, missing date, listing failure,
no images) emits exactly one; but a run whose analysis or final save
rejects emits exactly two — one from the inner analysis handler and one
from the outer stream handler that receives the rethrown error. -/
theorem c4_error_event_count (s : RouteScenario) :
    (s.bodyOk = true → s.dateOk = true → s.fetchOk = true → 0 < s.imagesCount →
      s.analysisOk = true → s.finalSaveOk = true →
      errorEventCount (routeEvents s) = 0) ∧
    (s.bodyOk = false → errorEventCount (routeEvents s) = 1) ∧
    (s.bodyOk = true → s.dateOk = false → errorEventCount (routeEvents s) = 1) ∧
    (s.bodyOk = true → s.dateOk = true → s.fetchOk = false →
      errorEventCount (routeEvents s) = 1) ∧
    (s.bodyOk = true → s.dateOk = true → s.fetchOk = true → s.imagesCount = 0 →
      errorEventCount (routeEvents s) = 1) ∧
    (s.bodyOk = true → s.dateOk = true → s.fetchOk = true → 0 < s.imagesCount →
      s.analysisOk = false → errorEventCount (routeEvents s) = 2) ∧
    (s.bodyOk = true → s.dateOk = true → s.fetchOk = true → 0 < s.imagesCount →
      s.analysisOk = true → s.finalSaveOk = false →
      errorEventCount (routeEvents s) = 2) := by
  refine ⟨?_, ?_, ?_, ?_, ?_, ?_, ?_⟩
  · intro hb hd hf himg ha hs
    have h0 : ¬ (s.imagesCount = 0) := by omega
    simp only [routeEvents, hb, hd, hf, ha, hs, h0, Bool.not_true, Bool.false_eq_true,
      if_false, if_true, errorEventCount_append, errorEventCount_callback]
    rfl
  · intro hb
    simp only [routeEvents, hb, Bool.not_false, if_true]
    rw [errorEventCount_outerCatch]
  · intro hb hd
    simp only [routeEvents, hb, hd, Bool.not_true, Bool.not_false, Bool.false_eq_true,
      if_false, if_true]
    rfl
  · intro hb hd hf
    simp only [routeEvents, hb, hd, hf, Bool.not_true, Bool.not_false, Bool.false_eq_true,
      if_false, if_true, errorEventCount_append]
    rw [errorEventCount_outerCatch]
    rfl
  · intro hb hd hf h0
    simp only [routeEvents, hb, hd, hf, h0, Bool.not_true, Bool.false_eq_true,
      if_false, if_true]
    rfl
  · intro hb hd hf himg ha
    have h0 : ¬ (s.imagesCount = 0) := by omega
    simp only [routeEvents, hb, hd, hf, ha, h0, Bool.not_true, Bool.false_eq_true,
      if_false, if_true, errorEventCount_append, errorEventCount_callback,
      errorEventCount_innerCatch, errorEventCount_outerCatch]
    rfl
  · intro hb hd hf himg ha hs
    have h0 : ¬ (s.imagesCount = 0) := by omega
    simp only [routeEvents, hb, hd, hf, ha, hs, h0, Bool.not_true, Bool.false_eq_true,
      if_false, if_true, errorEventCount_append, errorEventCount_callback,
      errorEventCount_innerCatch, errorEventCount_outerCatch]
    rfl

/-- Witness for claim C4: a fully successful three-image run emits zero
error events. -/
theorem c4_error_event_count_witness :
    errorEventCount (routeEvents ⟨true, true, true, 3, true, 0, true, true⟩) = 0 :=
  (c4_error_event_count ⟨true, true, true, 3, true, 0, true, true⟩).1
    rfl rfl rfl (by decide) rfl rfl

/-- Counterexample for claim C4 as stated: a run whose analysis rejects
before any image completed emits two `error` events (inner handler and
outer handler), not exactly one. -/
theorem c4_two_error_events_cex :
    errorEventCount (routeEvents ⟨true, true, true, 5, false, 0, true, true⟩) = 2 := by
  decide
